import Mathlib

/-!
Verification of the TradingView-to-Telegram webhook service (src/app.py).

The development shallowly embeds the Python source: Python dict payloads
become association lists over a value type `PyVal`, the process-wide
`TradingAlertManager` state becomes an explicit `ManagerState` record that
is threaded through the functions, the wall clock (`datetime.now()`) and
the outcome of the outbound Telegram HTTP call become explicit inputs, and
the JSON library (`json.loads`) is passed in as a parameter `loads`
wherever the source calls it.  All functions are executable.
-/

/-- A Python value as it occurs in the webhook payloads: either a string or
a dict (modelled as an association list; Python dict keys are unique, and
lookups below always take the first binding). -/
inductive PyVal where
  | str : String → PyVal
  | dict : List (String × PyVal) → PyVal

/-- Python truthiness of a payload value: empty strings and empty dicts are
falsy (`if not data:` in the source). -/
def pyFalsy : PyVal → Bool
  | .str s => s == ""
  | .dict m => m.isEmpty

/-- ASCII lower-casing of one character, as Python `str.lower` acts on the
ASCII range. -/
def lowerChar (c : Char) : Char :=
  if 65 ≤ c.toNat ∧ c.toNat ≤ 90 then Char.ofNat (c.toNat + 32) else c

/-- ASCII upper-casing of one character, as Python `str.upper` acts on the
ASCII range. -/
def upperChar (c : Char) : Char :=
  if 97 ≤ c.toNat ∧ c.toNat ≤ 122 then Char.ofNat (c.toNat - 32) else c

/-- Python `str.lower` (ASCII fragment). -/
def pyLower (s : String) : String := ⟨s.data.map lowerChar⟩

/-- Python `str.upper` (ASCII fragment). -/
def pyUpper (s : String) : String := ⟨s.data.map upperChar⟩

/-- The presentation record computed by `determine_trading_signal`
(src/app.py lines 131-181). -/
structure SignalInfo where
  emoji : String
  signal_text : String
  sentiment : String
  urgency : String
deriving DecidableEq

/-- The `signal_map` dict of `determine_trading_signal` (src/app.py lines
137-174), as a lookup on the already lower-cased action. -/
def signal_map (a : String) : Option SignalInfo :=
  if a = "buy" then some ⟨ "🟢", "LONG ENTRY", "BULLISH", "HIGH"⟩
  else if a = "long" then some ⟨ "🟢", "LONG POSITION", "BULLISH", "HIGH"⟩
  else if a = "sell" then some ⟨ "🔴", "SHORT ENTRY", "BEARISH", "HIGH"⟩
  else if a = "short" then some ⟨ "🔴", "SHORT POSITION", "BEARISH", "HIGH"⟩
  else if a = "exit" then some ⟨ "⚪", "POSITION EXIT", "NEUTRAL", "MEDIUM"⟩
  else if a = "close" then some ⟨ "⚪", "POSITION CLOSE", "NEUTRAL", "MEDIUM"⟩
  else none

/-- `TradingAlertManager.determine_trading_signal` (src/app.py lines
131-181): lower-case the action, look it up in `signal_map`, and fall back
to the generic low-urgency presentation whose text is the (already
lowered) action upper-cased. -/
def determine_trading_signal (action : String) : SignalInfo :=
  let a := pyLower action
  match signal_map a with
  | some info => info
  | none => ⟨ "⚪", pyUpper a, "NEUTRAL", "LOW"⟩

/-- The signal table exactly as the specification states it (spec section
4.2): keyed on the lower-cased action, with the default row showing the
upper-cased original action. -/
def claimedSignalTable (action : String) : SignalInfo :=
  let a := pyLower action
  if a = "buy" then ⟨ "🟢", "LONG ENTRY", "BULLISH", "HIGH"⟩
  else if a = "long" then ⟨ "🟢", "LONG POSITION", "BULLISH", "HIGH"⟩
  else if a = "sell" then ⟨ "🔴", "SHORT ENTRY", "BEARISH", "HIGH"⟩
  else if a = "short" then ⟨ "🔴", "SHORT POSITION", "BEARISH", "HIGH"⟩
  else if a = "exit" then ⟨ "⚪", "POSITION EXIT", "NEUTRAL", "MEDIUM"⟩
  else if a = "close" then ⟨ "⚪", "POSITION CLOSE", "NEUTRAL", "MEDIUM"⟩
  else ⟨ "⚪", pyUpper action, "NEUTRAL", "LOW"⟩

theorem toNat_ofNat_of_valid (n : Nat) (h : n < 55296) : (Char.ofNat n).toNat = n := by
  unfold Char.ofNat
  rw [dif_pos (Or.inl (by simpa using h))]
  simp [Char.ofNatAux, Char.toNat, UInt32.toNat]

theorem upperChar_lowerChar (c : Char) : upperChar (lowerChar c) = upperChar c := by
  unfold lowerChar upperChar
  by_cases h : 65 ≤ c.toNat ∧ c.toNat ≤ 90
  · rw [if_pos h]
    have hv : (Char.ofNat (c.toNat + 32)).toNat = c.toNat + 32 :=
      toNat_ofNat_of_valid _ (by omega)
    rw [if_pos (by omega), hv, if_neg (by omega)]
    have : c.toNat + 32 - 32 = c.toNat := by omega
    rw [this, Char.ofNat_toNat]
  · rw [if_neg h]

theorem pyUpper_pyLower (s : String) : pyUpper (pyLower s) = pyUpper s := by
  unfold pyUpper pyLower
  cases s with
  | mk data =>
    simp only [List.map_map]
    congr 1
    exact List.map_congr_left (fun c _ => upperChar_lowerChar c)

/-- C3: for every action string, `determine_trading_signal` lower-cases it
and returns exactly the table of the specification: buy, long, sell,
short, exit and close map to their fixed presentation rows, and any other
action (including "entry") maps to the white-circle, upper-cased-action,
NEUTRAL, LOW row. -/
theorem determine_trading_signal_matches_table (action : String) :
    determine_trading_signal action = claimedSignalTable action := by
  unfold determine_trading_signal claimedSignalTable signal_map
  by_cases h1 : pyLower action = "buy"
  · simp [h1]
  by_cases h2 : pyLower action = "long"
  · simp [h1, h2]
  by_cases h3 : pyLower action = "sell"
  · simp [h1, h2, h3]
  by_cases h4 : pyLower action = "short"
  · simp [h1, h2, h3, h4]
  by_cases h5 : pyLower action = "exit"
  · simp [h1, h2, h3, h4, h5]
  by_cases h6 : pyLower action = "close"
  · simp [h1, h2, h3, h4, h5, h6]
  · simp [h1, h2, h3, h4, h5, h6, pyUpper_pyLower]

/-- The fields extracted from the payload by `format_professional_alert`
(src/app.py lines 188-196), before any defaulting is observable. -/
structure AlertInput where
  symbol : PyVal
  action : PyVal
  price : PyVal
  contracts : PyVal
  position_size : PyVal
  strategy : PyVal
  timeframe : PyVal
  message : PyVal

/-- The `data.get(key, default)` extraction block of
`format_professional_alert` (src/app.py lines 188-196). -/
def extractFields (data : List (String × PyVal)) : AlertInput :=
  ⟨(data.lookup "symbol").getD (.str "UNKNOWN"),
   (data.lookup "action").getD (.str ""),
   (data.lookup "price").getD (.str "N/A"),
   (data.lookup "contracts").getD (.str "1"),
   (data.lookup "position_size").getD (.str "0"),
   (data.lookup "strategy").getD (.str "Unknown Strategy"),
   (data.lookup "timeframe").getD (.str "N/A"),
   (data.lookup "message").getD (.str "")⟩

/-- The two views of `datetime.now()` used by the formatter: the
`strftime("%Y-%m-%d %H:%M:%S")` rendering and the integer epoch seconds.
The clock is an external input of each call. -/
structure Timestamp where
  formatted : String
  epoch : Int
deriving DecidableEq

/-- One entry of `alert_history` (src/app.py lines 211-218).  The symbol,
action and price fields store the raw payload values. -/
structure AlertRecord where
  alert_id : Nat
  symbol : PyVal
  action : PyVal
  price : PyVal
  timestamp : String
  epoch : Int

/-- Builds the `alert_record` dict of src/app.py lines 211-218. -/
def mkAlertRecord (id : Nat) (symbol action price : PyVal) (now : Timestamp) : AlertRecord :=
  ⟨id, symbol, action, price, now.formatted, now.epoch⟩

/-- The mutable state of `TradingAlertManager` (src/app.py lines 99-102). -/
structure ManagerState where
  alert_count : Nat
  last_alert_time : Option String
  alert_history : List AlertRecord

/-- `TradingAlertManager.__init__` (src/app.py lines 99-102). -/
def initialManager : ManagerState := ⟨0, none, []⟩

/-- A Python exception escaping `validate_alert_data` or the formatter:
either a `ValueError` with its message (handled by the dedicated 400
branch of the webhook), or any other exception with its message (handled
by the generic 500 branch). -/
inductive PyError where
  | valueError : String → PyError
  | otherError : String → PyError
deriving DecidableEq

/-- The `valid_actions` list of `validate_alert_data` (src/app.py line 122). -/
def valid_actions : List String := [ "buy", "sell", "entry", "exit", "close", "long", "short"]

/-- Python `repr` of a list of strings, as it appears interpolated in the
invalid-action error message. -/
def renderPyStrList (l : List String) : String :=
  "[" ++ String.intercalate ", " (l.map (fun s => "\x27" ++ s ++ "\x27")) ++ "]"

/-- Containment of `pat` as a contiguous run inside a character list,
modelling the Python `in` operator on strings. -/
def listContainsSub (pat : List Char) : List Char → Bool
  | [] => pat.isPrefixOf []
  | c :: cs => pat.isPrefixOf (c :: cs) || listContainsSub pat cs

/-- Python `pat in s` on strings: substring containment. -/
def containsSub (s pat : String) : Bool := listContainsSub pat.data s.data

/-- Python `str.startswith`. -/
def pyStartsWith (s pre : String) : Bool := pre.data.isPrefixOf s.data

/-- Python `str.endswith`. -/
def pyEndsWith (s suf : String) : Bool := suf.data.reverse.isPrefixOf s.data.reverse

/-- Python `key in data` on a payload value: dict key membership for
dicts, substring membership for strings. -/
def pyContains (v : PyVal) (key : String) : Bool :=
  match v with
  | .dict m => (m.lookup key).isSome
  | .str s => containsSub s key

/-- `TradingAlertManager.validate_alert_data` (src/app.py lines 104-129):
check that `symbol` and `action` are present, then that the lower-cased
action is in `valid_actions`.  A missing field or an invalid action raises
a `ValueError`; on a string payload the subscript `data["action"]` raises
a `TypeError`, and on a dict-valued action `.lower()` raises an
`AttributeError` (both land in the generic exception branch). -/
def validate_alert_data (data : PyVal) : Except PyError Unit :=
  if ¬ pyContains data "symbol" then .error (.valueError "Missing required field: symbol")
  else if ¬ pyContains data "action" then .error (.valueError "Missing required field: action")
  else
    match data with
    | .str _ => .error (.otherError "string indices must be integers")
    | .dict m =>
      match m.lookup "action" with
      | none => .error (.otherError "unreachable: membership was just checked")
      | some (.dict _) =>
          .error (.otherError "\x27dict\x27 object has no attribute \x27lower\x27")
      | some (.str a) =>
        if valid_actions.contains (pyLower a) then .ok ()
        else .error (.valueError
          ("Invalid action: " ++ a ++ ". Valid actions: " ++ renderPyStrList valid_actions))

mutual

/-- Python `repr` of a payload value (strings get single quotes), used for
values nested inside a dict rendered by an f-string. -/
def pyRepr : PyVal → String
  | .str s => "\x27" ++ s ++ "\x27"
  | .dict m => "\x7b" ++ pyReprEntries m ++ "\x7d"

/-- Comma-separated `repr` rendering of dict entries. -/
def pyReprEntries : List (String × PyVal) → String
  | [] => ""
  | [(k, v)] => "\x27" ++ k ++ "\x27: " ++ pyRepr v
  | (k, v) :: rest => "\x27" ++ k ++ "\x27: " ++ pyRepr v ++ ", " ++ pyReprEntries rest

end

/-- Python `str` of a payload value, as interpolated by an f-string:
strings are used as-is, dicts render like their repr. -/
def pyStr : PyVal → String
  | .str s => s
  | .dict m => pyRepr (.dict m)

/-- Python `str.strip()` restricted to ASCII whitespace, applied to the
formatted message template. -/
def isPySpace (c : Char) : Bool :=
  c = ' ' || c = '\t' || c = '\n' || c = '\r' || c = '\x0b' || c = '\x0c'

/-- Python `str.strip()` on the message template. -/
def pyStrip (s : String) : String :=
  ⟨((s.data.dropWhile isPySpace).reverse.dropWhile isPySpace).reverse⟩

/-- The hashtag form of the symbol:
`symbol.replace("/", "").replace(".", "")` (src/app.py line 258). -/
def symbolHashtag (s : String) : String :=
  ⟨s.data.filter (fun c => ¬ (c = '/' ∨ c = '.'))⟩

/-- The bounding step on the history (src/app.py lines 220-221): after the
append, drop the front entry when the length exceeds 100. -/
def capHistory (l : List AlertRecord) : List AlertRecord :=
  if l.length > 100 then l.drop 1 else l

/-- The message template of `format_professional_alert` (src/app.py lines
232-261): urgency-dependent header, fixed multi-line body, trailing
hashtag line, all wrapped in `strip()`. -/
def renderMessage (count : Nat) (f : AlertInput) (sym act : String)
    (info : SignalInfo) (now : Timestamp) : String :=
  let header :=
    if info.urgency = "HIGH" then
      "🚨 " ++ info.emoji ++ " URGENT TRADING ALERT #" ++ toString count ++ " "
        ++ info.emoji ++ " 🚨"
    else
      info.emoji ++ " TRADING ALERT #" ++ toString count ++ " " ++ info.emoji
  pyStrip
    ("\n" ++ header
      ++ "\n──────────────────────────────────\n\nSYMBOL: " ++ pyStr f.symbol
      ++ "\nSIGNAL: " ++ info.signal_text
      ++ "\nPRICE: " ++ pyStr f.price
      ++ "\nCONTRACTS: " ++ pyStr f.contracts
      ++ "\nPOSITION SIZE: " ++ pyStr f.position_size
      ++ "\n\nTIMEFRAME: " ++ pyStr f.timeframe
      ++ "\nTIME: " ++ now.formatted
      ++ "\nSTRATEGY: " ++ pyStr f.strategy
      ++ "\n\nSENTIMENT: " ++ info.sentiment
      ++ "\nURGENCY: " ++ info.urgency
      ++ "\n\nNOTES: " ++ pyStr f.message
      ++ "\n\n#" ++ info.sentiment ++ " #" ++ symbolHashtag sym ++ " #" ++ act
      ++ "\n        ")

/-- `TradingAlertManager.format_professional_alert` (src/app.py lines
183-261).  Returns the state after the call together with the rendered
message, or the message of the exception when the Python code raises: a
dict-valued action makes `action.lower()` raise before any state is
touched, and a dict-valued symbol makes `symbol.replace` raise while
building the f-string, after the counter and history were already
updated. -/
def format_professional_alert (st : ManagerState) (data : List (String × PyVal))
    (now : Timestamp) : ManagerState × Except String String :=
  let f := extractFields data
  match f.action with
  | .dict _ => (st, .error "\x27dict\x27 object has no attribute \x27lower\x27")
  | .str act =>
    let signal_info := determine_trading_signal act
    let new_count := st.alert_count + 1
    let alert_record := mkAlertRecord new_count f.symbol f.action f.price now
    let new_history := capHistory (st.alert_history ++ [alert_record])
    let st2 : ManagerState := ⟨new_count, some now.formatted, new_history⟩
    match f.symbol with
    | .dict _ => (st2, .error "\x27dict\x27 object has no attribute \x27replace\x27")
    | .str sym => (st2, .ok (renderMessage new_count f sym act signal_info now))

/-- The observable outcome of the outbound `requests.post` call to the
Telegram API (src/app.py lines 279-300): a response with its status code
and text, or one of the exception classes handled by the source. -/
inductive TelegramOutcome where
  | response : Nat → String → TelegramOutcome
  | timeout : TelegramOutcome
  | connectionError : TelegramOutcome
  | otherError : String → TelegramOutcome
deriving DecidableEq

/-- `TradingAlertManager.send_telegram_alert` (src/app.py lines 263-300):
True exactly on a 200 response; any non-200 response, timeout, connection
error or unexpected exception returns False without raising. -/
def send_telegram_alert (_message : String) (outcome : TelegramOutcome) : Bool :=
  match outcome with
  | .response code _ => code == 200
  | .timeout => false
  | .connectionError => false
  | .otherError _ => false

/-- Delivery failure as the specification classifies it: timeout,
connection failure, non-200 response, or another sending exception. -/
def deliveryFails (outcome : TelegramOutcome) : Bool :=
  match outcome with
  | .response code _ => code ≠ 200
  | _ => true

/-- The inbound HTTP request as the webhook sees it: the content type (if
any), the raw body text, and the parsed form fields. -/
structure RawRequest where
  content_type : Option String
  body : String
  form : List (String × String)

/-- Flask `request.form.to_dict()`: the form fields as a dict payload. -/
def formToDict (form : List (String × String)) : PyVal :=
  .dict (form.map (fun kv => (kv.1, PyVal.str kv.2)))

/-- The last-resort branch of the body resolution (src/app.py lines
400-418): a non-empty raw body is parsed as JSON, or wrapped as
`raw_message` when parsing fails; an empty body leaves `data` unset. -/
def rawFallback (loads : String → Option PyVal) (body : String) : Option PyVal :=
  if body ≠ "" then
    match loads body with
    | some v => some v
    | none => some (.dict [("raw_message", .str body)])
  else none

/-- The content-type driven body resolution of `tradingview_webhook`
(src/app.py lines 354-418), parameterized by the JSON parser `loads`.
An `application/json` content type parses the body as JSON (`None` on
failure); `text/plain` parses the non-empty body as JSON and falls back to
the form fields; otherwise non-empty form fields are used directly, and
failing that the raw body fallback applies. -/
def resolveBody (loads : String → Option PyVal) (req : RawRequest) : Option PyVal :=
  match req.content_type with
  | some ct =>
    if containsSub ct "application/json" then loads req.body
    else if containsSub ct "text/plain" then
      if req.body ≠ "" then
        match loads req.body with
        | some v => some v
        | none => some (formToDict req.form)
      else none
    else if ¬ req.form.isEmpty then some (formToDict req.form)
    else rawFallback loads req.body
  | none =>
    if ¬ req.form.isEmpty then some (formToDict req.form)
    else rawFallback loads req.body

/-- The `raw_message` re-parse step of `tradingview_webhook` (src/app.py
lines 437-447): when the resolved payload is a dict containing the key
`raw_message` whose (string) value starts with an opening and ends with a
closing brace, the whole payload is replaced by the re-parse of that
string; any failure (non-string value, no braces, parse error) keeps the
payload unchanged. -/
def unwrapRaw (loads : String → Option PyVal) (v : PyVal) : PyVal :=
  match v with
  | .dict m =>
    match m.lookup "raw_message" with
    | some (.str s) =>
      if pyStartsWith s "\x7b" && pyEndsWith s "\x7d" then
        match loads s with
        | some v2 => v2
        | none => v
      else v
    | some (.dict _) => v
    | none => v
  | .str _ => v

/-- The JSON response of the webhook endpoint, restricted to the fields
the claims are about.  Fields that a branch of the source does not set
are `none` or `[]`. -/
structure HttpResponse where
  statusCode : Nat
  status : String
  message : String
  symbol : Option PyVal
  action : Option PyVal
  alert_id : Option Nat
  required_fields : List String
  validActions : List String

/-- The 400 response of src/app.py lines 423-429 (nothing parseable). -/
def noDataResponse : HttpResponse :=
  ⟨400, "error", "No data received or could be parsed", none, none, none, [], []⟩

/-- The 400 response of the `ValueError` handler (src/app.py lines
482-491), echoing the required fields and the allowed actions. -/
def validationResponse (emsg : String) : HttpResponse :=
  ⟨400, "error", "Data validation failed: " ++ emsg, none, none, none,
    ["symbol", "action"], ["buy", "sell", "entry", "exit", "close", "long", "short"]⟩

/-- The 200 success response (src/app.py lines 465-473). -/
def successResponse (m : List (String × PyVal)) (id : Nat) : HttpResponse :=
  ⟨200, "success", "Trading alert processed and delivered to Telegram",
    m.lookup "symbol", m.lookup "action", some id, [], []⟩

/-- The 500 response returned when the Telegram send fails (src/app.py
lines 476-480). -/
def sendFailResponse : HttpResponse :=
  ⟨500, "error", "Alert processed but failed to send to Telegram", none, none, none, [], []⟩

/-- The generic 500 response of the outer exception handler (src/app.py
lines 493-502). -/
def internalErrorResponse (emsg : String) : HttpResponse :=
  ⟨500, "error", "Internal server error: " ++ emsg, none, none, none, [], []⟩

/-- `tradingview_webhook` (src/app.py lines 339-502): resolve the body,
reject falsy payloads, re-parse a wrapped `raw_message`, validate, format
(mutating the manager state), send to Telegram, and translate the outcome
into the HTTP response.  `loads`, the clock and the Telegram outcome are
the external inputs of the request. -/
def tradingview_webhook (loads : String → Option PyVal) (st : ManagerState)
    (req : RawRequest) (now : Timestamp) (outcome : TelegramOutcome) :
    ManagerState × HttpResponse :=
  match resolveBody loads req with
  | none => (st, noDataResponse)
  | some v =>
    if pyFalsy v then (st, noDataResponse)
    else
      let processed := unwrapRaw loads v
      match validate_alert_data processed with
      | .error (.valueError emsg) => (st, validationResponse emsg)
      | .error (.otherError emsg) => (st, internalErrorResponse emsg)
      | .ok _ =>
        match processed with
        | .str _ =>
          (st, internalErrorResponse "\x27str\x27 object has no attribute \x27get\x27")
        | .dict m =>
          match format_professional_alert st m now with
          | (st2, .error emsg) => (st2, internalErrorResponse emsg)
          | (st2, .ok message) =>
            if send_telegram_alert message outcome then
              (st2, successResponse m st2.alert_count)
            else (st2, sendFailResponse)

/-- Skips JSON whitespace. -/
def skipWs : List Char → List Char
  | c :: cs => if c = ' ' || c = '\t' || c = '\n' || c = '\r' then skipWs cs else c :: cs
  | [] => []

/-- Reads the remainder of a JSON string literal after the opening quote
(no escape sequences), accumulating the characters read so far. -/
def readStrRest : List Char → List Char → Option (String × List Char)
  | [], _ => none
  | c :: cs, acc => if c = '"' then some (⟨acc.reverse⟩, cs) else readStrRest cs (c :: acc)

/-- Parses a JSON string literal. -/
def parseStrLit : List Char → Option (String × List Char)
  | c :: cs => if c = '"' then readStrRest cs [] else none
  | [] => none

/-- Parses the members of a JSON object after its opening brace, with fuel
bounding the recursion. -/
def parseMembers : Nat → List Char → List (String × PyVal) →
    Option (List (String × PyVal) × List Char)
  | 0, _, _ => none
  | fuel + 1, cs, acc =>
    match parseStrLit (skipWs cs) with
    | none => none
    | some (k, cs1) =>
      match skipWs cs1 with
      | ':' :: cs2 =>
        match parseStrLit (skipWs cs2) with
        | none => none
        | some (vs, cs3) =>
          let acc2 := acc ++ [(k, PyVal.str vs)]
          match skipWs cs3 with
          | ',' :: cs4 => parseMembers fuel cs4 acc2
          | c :: cs5 => if c = '\x7d' then some (acc2, cs5) else none
          | [] => none
      | _ => none

/-- A model of Python `json.loads` restricted to flat JSON objects with
string keys and string values (with `None` as the parse failure).  Every
concrete payload considered below is of this shape; the universally
quantified theorems take the parser as a parameter instead. -/
def jsonLoads (s : String) : Option PyVal :=
  match skipWs s.data with
  | c :: cs =>
    if c = '\x7b' then
      match skipWs cs with
      | d :: ds =>
        if d = '\x7d' then
          if (skipWs ds).isEmpty then some (.dict []) else none
        else
          match parseMembers (s.length + 1) cs [] with
          | some (m, rest) => if (skipWs rest).isEmpty then some (.dict m) else none
          | none => none
      | [] => none
    else none
  | [] => none

/-- Runs a sequence of formatter calls (payload and clock per call),
returning the final manager state. -/
def runFormats (st : ManagerState) : List (List (String × PyVal) × Timestamp) → ManagerState
  | [] => st
  | c :: rest => runFormats (format_professional_alert st c.1 c.2).1 rest

/-- The `alert_count` value observed right after each formatter call of a
sequence; on calls that append a record this is the `alert_id` the record
stores. -/
def recordedIds (st : ManagerState) : List (List (String × PyVal) × Timestamp) → List Nat
  | [] => []
  | c :: rest =>
    let st2 := (format_professional_alert st c.1 c.2).1
    st2.alert_count :: recordedIds st2 rest

theorem format_state_eq (st : ManagerState) (m : List (String × PyVal)) (now : Timestamp)
    (a : String) (ha : (extractFields m).action = PyVal.str a) :
    (format_professional_alert st m now).1 =
      ⟨st.alert_count + 1, some now.formatted,
        capHistory (st.alert_history ++
          [mkAlertRecord (st.alert_count + 1) (extractFields m).symbol (extractFields m).action
            (extractFields m).price now])⟩ := by
  simp only [format_professional_alert]
  rw [ha]
  cases hsym : (extractFields m).symbol <;> simp [hsym, ha]

theorem format_full_eq (st : ManagerState) (m : List (String × PyVal)) (now : Timestamp)
    (a sym : String) (ha : (extractFields m).action = PyVal.str a)
    (hs : (extractFields m).symbol = PyVal.str sym) :
    format_professional_alert st m now =
      (⟨st.alert_count + 1, some now.formatted,
        capHistory (st.alert_history ++
          [mkAlertRecord (st.alert_count + 1) (PyVal.str sym) (PyVal.str a)
            (extractFields m).price now])⟩,
       .ok (renderMessage (st.alert_count + 1) (extractFields m) sym a
         (determine_trading_signal a) now)) := by
  simp only [format_professional_alert]
  rw [ha, hs]

theorem runFormats_counts (calls : List (List (String × PyVal) × Timestamp)) :
    ∀ st : ManagerState,
    (∀ c ∈ calls, ∃ a, (extractFields c.1).action = PyVal.str a) →
    recordedIds st calls = List.range' (st.alert_count + 1) calls.length ∧
    (runFormats st calls).alert_count = st.alert_count + calls.length := by
  induction calls with
  | nil => intro st _; simp [recordedIds, runFormats]
  | cons c rest ih =>
    intro st h
    obtain ⟨a, ha⟩ := h c (List.mem_cons_self c rest)
    have hrest : ∀ x ∈ rest, ∃ a2, (extractFields x.1).action = PyVal.str a2 :=
      fun x hx => h x (List.mem_cons_of_mem c hx)
    have hstep := format_state_eq st c.1 c.2 a ha
    have ih2 := ih (format_professional_alert st c.1 c.2).1 hrest
    have hcount : (format_professional_alert st c.1 c.2).1.alert_count = st.alert_count + 1 := by
      rw [hstep]
    constructor
    · simp only [recordedIds, List.length_cons]
      rw [ih2.1, hcount, List.range'_succ]
    · simp only [runFormats, List.length_cons]
      rw [ih2.2, hcount]
      omega

/-- C1: over any sequence of formatter calls whose payloads carry a string
action that, lower-cased, is in the allowed set, the alert ids recorded by
the calls form the consecutive sequence 1, 2, ..., n (strictly increasing,
starting at 1), and after every prefix of the sequence the in-process
counter equals the number of calls made, so it is never reset. -/
theorem alert_ids_sequential_from_one
    (calls : List (List (String × PyVal) × Timestamp))
    (hvalid : ∀ c ∈ calls, ∃ a, (extractFields c.1).action = PyVal.str a ∧
       valid_actions.contains (pyLower a) = true) :
    recordedIds initialManager calls = List.range' 1 calls.length ∧
    (∀ p, p <+: calls → (runFormats initialManager p).alert_count = p.length) := by
  have hstr : ∀ c ∈ calls, ∃ a, (extractFields c.1).action = PyVal.str a :=
    fun c hc => (hvalid c hc).elim (fun a hA => ⟨a, hA.1⟩)
  constructor
  · have h := (runFormats_counts calls initialManager hstr).1
    simpa [initialManager] using h
  · intro p hp
    have hstrp : ∀ c ∈ p, ∃ a, (extractFields c.1).action = PyVal.str a :=
      fun c hc => hstr c (hp.subset hc)
    have h := (runFormats_counts p initialManager hstrp).2
    simpa [initialManager] using h

theorem alert_ids_sequential_from_one_witness :
    recordedIds initialManager
        [([("symbol", PyVal.str "X"), ("action", PyVal.str "buy")], ⟨ "t1", 1⟩),
         ([("action", PyVal.str "SELL")], ⟨ "t2", 2⟩)] = List.range' 1 2 ∧
    (∀ p, p <+:
        [([("symbol", PyVal.str "X"), ("action", PyVal.str "buy")], ⟨ "t1", 1⟩),
         ([("action", PyVal.str "SELL")], ⟨ "t2", 2⟩)] →
      (runFormats initialManager p).alert_count = p.length) := by
  have h := alert_ids_sequential_from_one
    [([("symbol", PyVal.str "X"), ("action", PyVal.str "buy")], ⟨ "t1", 1⟩),
     ([("action", PyVal.str "SELL")], ⟨ "t2", 2⟩)]
    (by
      intro c hc
      simp only [List.mem_cons, List.not_mem_nil, or_false] at hc
      rcases hc with rfl | rfl
      · exact ⟨ "buy", rfl, by decide⟩
      · exact ⟨ "SELL", rfl, by decide⟩)
  exact h

/-- Invariant of every reachable manager state: the history is bounded by
100, its alert ids are strictly increasing from front to back, and all of
them are at most the current counter value. -/
def managerInv (st : ManagerState) : Prop :=
  st.alert_history.length ≤ 100 ∧
  st.alert_history.Pairwise (fun r1 r2 => r1.alert_id < r2.alert_id) ∧
  ∀ r ∈ st.alert_history, r.alert_id ≤ st.alert_count

theorem capHistory_length (l : List AlertRecord) (h : l.length ≤ 101) :
    (capHistory l).length ≤ 100 := by
  unfold capHistory
  split
  · simp only [List.length_drop]
    omega
  · omega

theorem capHistory_pairwise (l : List AlertRecord)
    (h : l.Pairwise (fun r1 r2 => r1.alert_id < r2.alert_id)) :
    (capHistory l).Pairwise (fun r1 r2 => r1.alert_id < r2.alert_id) := by
  unfold capHistory
  split
  · exact h.sublist (List.drop_sublist 1 l)
  · exact h

theorem capHistory_mem (l : List AlertRecord) (x : AlertRecord) (h : x ∈ capHistory l) :
    x ∈ l := by
  unfold capHistory at h
  split at h
  · exact (List.drop_sublist 1 l).mem h
  · exact h

theorem managerInv_step (st : ManagerState) (m : List (String × PyVal)) (now : Timestamp)
    (h : managerInv st) : managerInv (format_professional_alert st m now).1 := by
  obtain ⟨hlen, hpw, hle⟩ := h
  cases ha : (extractFields m).action with
  | dict d =>
    simp only [format_professional_alert, ha]
    exact ⟨hlen, hpw, hle⟩
  | str a =>
    rw [format_state_eq st m now a ha]
    refine ⟨?_, ?_, ?_⟩
    · exact capHistory_length _ (by simp; omega)
    · refine capHistory_pairwise _ (List.pairwise_append.mpr ⟨hpw, by simp, ?_⟩)
      intro x hx y hy
      simp only [List.mem_singleton] at hy
      subst hy
      have := hle x hx
      simp only [mkAlertRecord]
      omega
    · intro r hr
      have hr2 := capHistory_mem _ _ hr
      rcases List.mem_append.mp hr2 with hmem | hmem
      · exact Nat.le_succ_of_le (hle r hmem)
      · simp only [List.mem_singleton] at hmem
        subst hmem
        simp [mkAlertRecord]

theorem managerInv_run (calls : List (List (String × PyVal) × Timestamp)) :
    ∀ st : ManagerState, managerInv st → managerInv (runFormats st calls) := by
  induction calls with
  | nil => intro st h; exact h
  | cons c rest ih =>
    intro st h
    exact ih _ (managerInv_step st c.1 c.2 h)

theorem managerInv_initial : managerInv initialManager := by
  refine ⟨by simp [initialManager], by simp [initialManager], by simp [initialManager]⟩

/-- C2: after every formatter call reached from the initial state the
history holds at most 100 entries; a call that appends while the history
holds fewer than 100 entries evicts nothing (the history is exactly the
old one plus the new record at the back); and a call that appends to a
history of exactly 100 entries evicts exactly the front entry, whose
alert id is strictly smaller than that of every entry still present,
including the new record. -/
theorem history_bounded_fifo
    (calls : List (List (String × PyVal) × Timestamp))
    (m : List (String × PyVal)) (now : Timestamp) :
    (format_professional_alert (runFormats initialManager calls) m now).1.alert_history.length
        ≤ 100 ∧
    (∀ a, (extractFields m).action = PyVal.str a →
      (runFormats initialManager calls).alert_history.length < 100 →
      (format_professional_alert (runFormats initialManager calls) m now).1.alert_history =
        (runFormats initialManager calls).alert_history ++
          [mkAlertRecord ((runFormats initialManager calls).alert_count + 1)
            (extractFields m).symbol (PyVal.str a) (extractFields m).price now]) ∧
    (∀ a, (extractFields m).action = PyVal.str a →
      (runFormats initialManager calls).alert_history.length = 100 →
      ∃ e rest, (runFormats initialManager calls).alert_history = e :: rest ∧
        (format_professional_alert (runFormats initialManager calls) m now).1.alert_history =
          rest ++ [mkAlertRecord ((runFormats initialManager calls).alert_count + 1)
            (extractFields m).symbol (PyVal.str a) (extractFields m).price now] ∧
        (∀ x ∈ rest, e.alert_id < x.alert_id) ∧
        e.alert_id < (runFormats initialManager calls).alert_count + 1) := by
  have hinv := managerInv_run calls initialManager managerInv_initial
  obtain ⟨hlen, hpw, hle⟩ := hinv
  refine ⟨?_, ?_, ?_⟩
  · exact (managerInv_step (runFormats initialManager calls) m now ⟨hlen, hpw, hle⟩).1
  · intro a ha hsmall
    rw [format_state_eq _ m now a ha, ha]
    simp only [capHistory]
    rw [if_neg (by simp; omega)]
  · intro a ha hfull
    match hh : (runFormats initialManager calls).alert_history with
    | [] => rw [hh] at hfull; simp at hfull
    | e :: rest =>
      refine ⟨e, rest, rfl, ?_, ?_, ?_⟩
      · rw [format_state_eq _ m now a ha, ha]
        simp only [capHistory]
        rw [hh]
        rw [if_pos (by rw [hh] at hfull; simp at hfull ⊢; omega)]
        simp
      · intro x hx
        rw [hh] at hpw
        exact (List.pairwise_cons.mp hpw).1 x hx
      · rw [hh] at hle
        have := hle e (List.mem_cons_self e rest)
        omega

theorem history_bounded_fifo_witness :
    (format_professional_alert initialManager [("action", PyVal.str "buy")]
        ⟨ "t", 0⟩).1.alert_history.length ≤ 100 ∧
    (format_professional_alert initialManager [("action", PyVal.str "buy")]
        ⟨ "t", 0⟩).1.alert_history =
      initialManager.alert_history ++
        [mkAlertRecord 1 (PyVal.str "UNKNOWN") (PyVal.str "buy") (PyVal.str "N/A") ⟨ "t", 0⟩] := by
  have h := history_bounded_fifo [] [("action", PyVal.str "buy")] ⟨ "t", 0⟩
  exact ⟨h.1, h.2.1 "buy" rfl (by decide)⟩

/-- C4: validation of a payload dict fails naming the missing field when
`symbol` (checked first) or `action` is absent, fails naming the received
value and the allowed action list when the lower-cased action is not in
the allowed set, and succeeds otherwise; and whenever validation of the
resolved payload raises a `ValueError`, the webhook answers 400 echoing
the required fields and the allowed actions. -/
theorem validation_errors_and_http400
    (m : List (String × PyVal)) (loads : String → Option PyVal) (st : ManagerState)
    (req : RawRequest) (now : Timestamp) (outcome : TelegramOutcome) :
    (m.lookup "symbol" = none →
      validate_alert_data (.dict m) = .error (.valueError "Missing required field: symbol")) ∧
    ((∃ v, m.lookup "symbol" = some v) → m.lookup "action" = none →
      validate_alert_data (.dict m) = .error (.valueError "Missing required field: action")) ∧
    (∀ v a, m.lookup "symbol" = some v → m.lookup "action" = some (PyVal.str a) →
      valid_actions.contains (pyLower a) = false →
      validate_alert_data (.dict m) = .error (.valueError
        ("Invalid action: " ++ a ++ ". Valid actions: " ++ renderPyStrList valid_actions))) ∧
    (∀ v a, m.lookup "symbol" = some v → m.lookup "action" = some (PyVal.str a) →
      valid_actions.contains (pyLower a) = true →
      validate_alert_data (.dict m) = .ok ()) ∧
    (∀ v emsg, resolveBody loads req = some v → pyFalsy v = false →
      validate_alert_data (unwrapRaw loads v) = .error (.valueError emsg) →
      tradingview_webhook loads st req now outcome = (st, validationResponse emsg)) := by
  refine ⟨?_, ?_, ?_, ?_, ?_⟩
  · intro hsym
    simp [validate_alert_data, pyContains, hsym]
  · rintro ⟨v, hsym⟩ hact
    simp [validate_alert_data, pyContains, hsym, hact]
  · intro v a hsym hact hbad
    simp [validate_alert_data, pyContains, hsym, hact]
    simpa using hbad
  · intro v a hsym hact hgood
    simp [validate_alert_data, pyContains, hsym, hact]
    simpa using hgood
  · intro v emsg hres hfalsy hval
    simp only [tradingview_webhook]
    rw [hres]
    simp only [hfalsy, Bool.false_eq_true, if_false]
    rw [hval]

theorem validation_errors_and_http400_witness :
    validate_alert_data (.dict [("action", PyVal.str "buy")]) =
      .error (.valueError "Missing required field: symbol") ∧
    validate_alert_data (.dict [("symbol", PyVal.str "X")]) =
      .error (.valueError "Missing required field: action") ∧
    validate_alert_data (.dict [("symbol", PyVal.str "X"), ("action", PyVal.str "hold")]) =
      .error (.valueError
        ("Invalid action: hold. Valid actions: " ++ renderPyStrList valid_actions)) ∧
    validate_alert_data (.dict [("symbol", PyVal.str "X"), ("action", PyVal.str "BUY")]) =
      .ok () ∧
    tradingview_webhook jsonLoads initialManager
        ⟨some "application/json", "\x7b\"symbol\":\"X\",\"action\":\"hold\"\x7d", []⟩
        ⟨ "t", 0⟩ .timeout =
      (initialManager, validationResponse
        ("Invalid action: hold. Valid actions: " ++ renderPyStrList valid_actions)) := by
  refine ⟨?_, ?_, ?_, ?_, ?_⟩
  · exact (validation_errors_and_http400 [("action", PyVal.str "buy")] jsonLoads
      initialManager ⟨none, "", []⟩ ⟨ "t", 0⟩ .timeout).1 rfl
  · exact (validation_errors_and_http400 [("symbol", PyVal.str "X")] jsonLoads
      initialManager ⟨none, "", []⟩ ⟨ "t", 0⟩ .timeout).2.1 ⟨PyVal.str "X", rfl⟩ rfl
  · exact (validation_errors_and_http400 [("symbol", PyVal.str "X"), ("action", PyVal.str "hold")]
      jsonLoads initialManager ⟨none, "", []⟩ ⟨ "t", 0⟩ .timeout).2.2.1
      (PyVal.str "X") "hold" rfl rfl (by decide)
  · exact (validation_errors_and_http400 [("symbol", PyVal.str "X"), ("action", PyVal.str "BUY")]
      jsonLoads initialManager ⟨none, "", []⟩ ⟨ "t", 0⟩ .timeout).2.2.2.1
      (PyVal.str "X") "BUY" rfl rfl (by decide)
  · exact (validation_errors_and_http400 [] jsonLoads initialManager
      ⟨some "application/json", "\x7b\"symbol\":\"X\",\"action\":\"hold\"\x7d", []⟩
      ⟨ "t", 0⟩ .timeout).2.2.2.2
      (PyVal.dict [("symbol", PyVal.str "X"), ("action", PyVal.str "hold")])
      ("Invalid action: hold. Valid actions: " ++ renderPyStrList valid_actions) rfl rfl rfl

/-- C10: when validation of the resolved payload raises a `ValueError`,
the webhook leaves the manager state exactly as it was: the counter, the
last-alert time and the history are unchanged, so a rejected alert
consumes no sequence number and leaves no history entry. -/
theorem rejected_alert_state_unchanged
    (loads : String → Option PyVal) (st : ManagerState) (req : RawRequest)
    (now : Timestamp) (outcome : TelegramOutcome) (v : PyVal) (emsg : String)
    (hres : resolveBody loads req = some v) (hfalsy : pyFalsy v = false)
    (hval : validate_alert_data (unwrapRaw loads v) = .error (.valueError emsg)) :
    (tradingview_webhook loads st req now outcome).1 = st ∧
    (tradingview_webhook loads st req now outcome).1.alert_count = st.alert_count ∧
    (tradingview_webhook loads st req now outcome).1.last_alert_time = st.last_alert_time ∧
    (tradingview_webhook loads st req now outcome).1.alert_history = st.alert_history := by
  have h : tradingview_webhook loads st req now outcome = (st, validationResponse emsg) := by
    simp only [tradingview_webhook]
    rw [hres]
    simp only [hfalsy, Bool.false_eq_true, if_false]
    rw [hval]
  rw [h]
  exact ⟨rfl, rfl, rfl, rfl⟩

theorem rejected_alert_state_unchanged_witness :
    (tradingview_webhook jsonLoads initialManager
        ⟨some "application/json", "\x7b\"symbol\":\"X\",\"action\":\"hold\"\x7d", []⟩
        ⟨ "t", 0⟩ .timeout).1 = initialManager := by
  exact (rejected_alert_state_unchanged jsonLoads initialManager
    ⟨some "application/json", "\x7b\"symbol\":\"X\",\"action\":\"hold\"\x7d", []⟩
    ⟨ "t", 0⟩ .timeout
    (PyVal.dict [("symbol", PyVal.str "X"), ("action", PyVal.str "hold")])
    ("Invalid action: hold. Valid actions: " ++ renderPyStrList valid_actions)
    rfl rfl rfl).1

/-- C5 counterexample: a payload that contains the key `raw_message` with
a brace-delimited parseable string value, together with an extra key, is
nonetheless replaced by the re-parse of that string — contradicting the
claim that the mapping is kept unchanged whenever extra keys are present
(the source only tests key membership, not that `raw_message` is the only
key). -/
theorem unwrap_extra_key_counterexample :
    unwrapRaw jsonLoads
        (.dict [("raw_message", PyVal.str "\x7b\"symbol\":\"X\"\x7d"),
                ("extra", PyVal.str "1")]) =
      .dict [("symbol", PyVal.str "X")] ∧
    unwrapRaw jsonLoads
        (.dict [("raw_message", PyVal.str "\x7b\"symbol\":\"X\"\x7d"),
                ("extra", PyVal.str "1")]) ≠
      .dict [("raw_message", PyVal.str "\x7b\"symbol\":\"X\"\x7d"),
             ("extra", PyVal.str "1")] := by
  have h1 : unwrapRaw jsonLoads
      (.dict [("raw_message", PyVal.str "\x7b\"symbol\":\"X\"\x7d"),
              ("extra", PyVal.str "1")]) =
      .dict [("symbol", PyVal.str "X")] := rfl
  refine ⟨h1, ?_⟩
  rw [h1]
  intro h
  simp at h

/-- C5 (amended): after body resolution, a dict payload is replaced by the
re-parse of its `raw_message` value exactly when that key is present
(regardless of any other keys), its value is a string that starts with an
opening brace and ends with a closing brace, and the string parses as
JSON; in every other case (key absent, non-string value, value not
brace-delimited, or re-parse failure) the payload is kept unchanged. -/
theorem unwrap_replaces_iff_raw_message
    (loads : String → Option PyVal) (m : List (String × PyVal)) :
    (∀ s v2, m.lookup "raw_message" = some (PyVal.str s) →
      pyStartsWith s "\x7b" = true → pyEndsWith s "\x7d" = true → loads s = some v2 →
      unwrapRaw loads (.dict m) = v2) ∧
    (m.lookup "raw_message" = none → unwrapRaw loads (.dict m) = .dict m) ∧
    (∀ s, m.lookup "raw_message" = some (PyVal.str s) →
      (pyStartsWith s "\x7b" && pyEndsWith s "\x7d") = false →
      unwrapRaw loads (.dict m) = .dict m) ∧
    (∀ s, m.lookup "raw_message" = some (PyVal.str s) → loads s = none →
      unwrapRaw loads (.dict m) = .dict m) ∧
    (∀ d, m.lookup "raw_message" = some (PyVal.dict d) →
      unwrapRaw loads (.dict m) = .dict m) := by
  refine ⟨?_, ?_, ?_, ?_, ?_⟩
  · intro s v2 hs hpre hsuf hload
    simp [unwrapRaw, hs, hpre, hsuf, hload]
  · intro hs
    simp [unwrapRaw, hs]
  · intro s hs hbrace
    simp only [unwrapRaw, hs]
    rw [if_neg (by simp [hbrace])]
  · intro s hs hload
    simp only [unwrapRaw, hs]
    split
    · simp [hload]
    · rfl
  · intro d hs
    simp [unwrapRaw, hs]

theorem unwrap_replaces_iff_raw_message_witness :
    unwrapRaw jsonLoads (.dict [("raw_message", PyVal.str "\x7b\"a\":\"b\"\x7d")]) =
      .dict [("a", PyVal.str "b")] := by
  exact (unwrap_replaces_iff_raw_message jsonLoads
      [("raw_message", PyVal.str "\x7b\"a\":\"b\"\x7d")]).1
    "\x7b\"a\":\"b\"\x7d" (.dict [("a", PyVal.str "b")]) rfl rfl rfl rfl

theorem send_false_of_fails (msg : String) (outcome : TelegramOutcome)
    (h : deliveryFails outcome = true) : send_telegram_alert msg outcome = false := by
  cases outcome with
  | response code t =>
    have hne : code ≠ 200 := by simpa [deliveryFails] using h
    simp [send_telegram_alert, hne]
  | timeout => rfl
  | connectionError => rfl
  | otherError e => rfl

theorem mem_capHistory_append (l : List AlertRecord) (r : AlertRecord) :
    r ∈ capHistory (l ++ [r]) := by
  unfold capHistory
  split
  · cases l with
    | nil => simp_all
    | cons x xs => simp
  · simp

/-- C6: when the Telegram delivery fails (timeout, connection error,
other sending exception, or a non-200 response), `send_telegram_alert`
returns the failure value False without raising; the webhook answers 500
with the processed-but-failed-to-send message; and the alert is still
counted and recorded: the counter was incremented and the new record sits
in the history, because the history append happened at format time,
before delivery was attempted. -/
theorem delivery_failure_http500_alert_recorded
    (loads : String → Option PyVal) (st : ManagerState) (req : RawRequest)
    (now : Timestamp) (outcome : TelegramOutcome)
    (m : List (String × PyVal)) (v : PyVal) (a sym : String)
    (hres : resolveBody loads req = some v) (hfalsy : pyFalsy v = false)
    (hunwrap : unwrapRaw loads v = .dict m)
    (hsym : m.lookup "symbol" = some (PyVal.str sym))
    (hact : m.lookup "action" = some (PyVal.str a))
    (hgood : valid_actions.contains (pyLower a) = true)
    (hfail : deliveryFails outcome = true) :
    send_telegram_alert (renderMessage (st.alert_count + 1) (extractFields m) sym a
        (determine_trading_signal a) now) outcome = false ∧
    tradingview_webhook loads st req now outcome =
      ((format_professional_alert st m now).1, sendFailResponse) ∧
    sendFailResponse.statusCode = 500 ∧
    sendFailResponse.message = "Alert processed but failed to send to Telegram" ∧
    (format_professional_alert st m now).1.alert_count = st.alert_count + 1 ∧
    mkAlertRecord (st.alert_count + 1) (PyVal.str sym) (PyVal.str a)
        ((extractFields m).price) now ∈ (format_professional_alert st m now).1.alert_history := by
  have ha : (extractFields m).action = PyVal.str a := by simp [extractFields, hact]
  have hs : (extractFields m).symbol = PyVal.str sym := by simp [extractFields, hsym]
  have hval : validate_alert_data (.dict m) = .ok () := by
    simp [validate_alert_data, pyContains, hsym, hact]
    simpa using hgood
  have hsend : ∀ msg, send_telegram_alert msg outcome = false :=
    fun msg => send_false_of_fails msg outcome hfail
  have hformat := format_full_eq st m now a sym ha hs
  have hstate := format_state_eq st m now a ha
  refine ⟨hsend _, ?_, rfl, rfl, ?_, ?_⟩
  · simp only [tradingview_webhook]
    rw [hres]
    simp only [hfalsy, Bool.false_eq_true, if_false, hunwrap, hval, hformat, hsend]
  · rw [hstate]
  · rw [hstate, ha, hs]
    exact mem_capHistory_append st.alert_history _

theorem delivery_failure_http500_alert_recorded_witness :
    tradingview_webhook jsonLoads initialManager
        ⟨some "application/json", "\x7b\"symbol\":\"X\",\"action\":\"buy\"\x7d", []⟩
        ⟨ "t", 0⟩ .timeout =
      ((format_professional_alert initialManager
          [("symbol", PyVal.str "X"), ("action", PyVal.str "buy")] ⟨ "t", 0⟩).1,
        sendFailResponse) ∧
    (format_professional_alert initialManager
        [("symbol", PyVal.str "X"), ("action", PyVal.str "buy")] ⟨ "t", 0⟩).1.alert_count = 1 ∧
    mkAlertRecord 1 (PyVal.str "X") (PyVal.str "buy") (PyVal.str "N/A") ⟨ "t", 0⟩ ∈
      (format_professional_alert initialManager
        [("symbol", PyVal.str "X"), ("action", PyVal.str "buy")] ⟨ "t", 0⟩).1.alert_history := by
  have h := delivery_failure_http500_alert_recorded jsonLoads initialManager
    ⟨some "application/json", "\x7b\"symbol\":\"X\",\"action\":\"buy\"\x7d", []⟩
    ⟨ "t", 0⟩ .timeout
    [("symbol", PyVal.str "X"), ("action", PyVal.str "buy")]
    (PyVal.dict [("symbol", PyVal.str "X"), ("action", PyVal.str "buy")])
    "buy" "X" rfl rfl rfl rfl rfl (by decide) rfl
  exact ⟨h.2.1, h.2.2.2.2.1, h.2.2.2.2.2⟩

/-- C7: a JSON-object body whose mapping carries string-valued `symbol`,
`action` and `price` (and none of the optional keys) is, under the
`application/json` content type, resolved to exactly that mapping, left
untouched by the `raw_message` unwrap, and extracted by the formatter
into those three values with the documented defaults for the rest:
contracts "1", position_size "0", strategy "Unknown Strategy",
timeframe "N/A", message "". -/
theorem json_path_defaults
    (loads : String → Option PyVal) (b : String) (form : List (String × String))
    (m : List (String × PyVal)) (s a p : String)
    (hb : loads b = some (.dict m))
    (hsym : m.lookup "symbol" = some (PyVal.str s))
    (hact : m.lookup "action" = some (PyVal.str a))
    (hpr : m.lookup "price" = some (PyVal.str p))
    (hraw : m.lookup "raw_message" = none)
    (hcon : m.lookup "contracts" = none)
    (hpos : m.lookup "position_size" = none)
    (hstg : m.lookup "strategy" = none)
    (htf : m.lookup "timeframe" = none)
    (hmsg : m.lookup "message" = none) :
    resolveBody loads ⟨some "application/json", b, form⟩ = some (.dict m) ∧
    unwrapRaw loads (.dict m) = .dict m ∧
    extractFields m = ⟨PyVal.str s, PyVal.str a, PyVal.str p, PyVal.str "1", PyVal.str "0",
      PyVal.str "Unknown Strategy", PyVal.str "N/A", PyVal.str ""⟩ := by
  refine ⟨?_, ?_, ?_⟩
  · simp only [resolveBody]
    rw [if_pos (by decide)]
    exact hb
  · simp [unwrapRaw, hraw]
  · simp [extractFields, hsym, hact, hpr, hcon, hpos, hstg, htf, hmsg]

theorem json_path_defaults_witness :
    resolveBody jsonLoads
        ⟨some "application/json",
         "\x7b\"symbol\":\"BTCUSDT\",\"action\":\"buy\",\"price\":\"50000\"\x7d", []⟩ =
      some (.dict [("symbol", PyVal.str "BTCUSDT"), ("action", PyVal.str "buy"),
        ("price", PyVal.str "50000")]) ∧
    extractFields [("symbol", PyVal.str "BTCUSDT"), ("action", PyVal.str "buy"),
        ("price", PyVal.str "50000")] =
      ⟨PyVal.str "BTCUSDT", PyVal.str "buy", PyVal.str "50000", PyVal.str "1", PyVal.str "0",
        PyVal.str "Unknown Strategy", PyVal.str "N/A", PyVal.str ""⟩ := by
  have h := json_path_defaults jsonLoads
    "\x7b\"symbol\":\"BTCUSDT\",\"action\":\"buy\",\"price\":\"50000\"\x7d" []
    [("symbol", PyVal.str "BTCUSDT"), ("action", PyVal.str "buy"), ("price", PyVal.str "50000")]
    "BTCUSDT" "buy" "50000" rfl rfl rfl rfl rfl rfl rfl rfl rfl rfl
  exact ⟨h.1, h.2.2⟩

/-- C8: a non-empty body that parses as a JSON object resolves to the
same mapping through the `text/plain` branch as through the
`application/json` branch, and consequently the whole webhook behaves
identically on the two requests (parser-path independence on JSON-object
bodies). -/
theorem parser_path_equivalence
    (loads : String → Option PyVal) (b : String) (form : List (String × String))
    (st : ManagerState) (now : Timestamp) (outcome : TelegramOutcome)
    (m : List (String × PyVal))
    (hb : loads b = some (.dict m)) (hne : b ≠ "") :
    resolveBody loads ⟨some "text/plain", b, form⟩ = some (.dict m) ∧
    resolveBody loads ⟨some "application/json", b, form⟩ = some (.dict m) ∧
    tradingview_webhook loads st ⟨some "text/plain", b, form⟩ now outcome =
      tradingview_webhook loads st ⟨some "application/json", b, form⟩ now outcome := by
  have h1 : resolveBody loads ⟨some "text/plain", b, form⟩ = some (.dict m) := by
    simp only [resolveBody]
    rw [if_neg (by decide), if_pos (by decide), if_pos hne, hb]
  have h2 : resolveBody loads ⟨some "application/json", b, form⟩ = some (.dict m) := by
    simp only [resolveBody]
    rw [if_pos (by decide)]
    exact hb
  refine ⟨h1, h2, ?_⟩
  simp only [tradingview_webhook, h1, h2]

theorem parser_path_equivalence_witness :
    resolveBody jsonLoads
        ⟨some "text/plain", "\x7b\"symbol\":\"ETHUSDT\",\"action\":\"sell\"\x7d", []⟩ =
      some (.dict [("symbol", PyVal.str "ETHUSDT"), ("action", PyVal.str "sell")]) ∧
    tradingview_webhook jsonLoads initialManager
        ⟨some "text/plain", "\x7b\"symbol\":\"ETHUSDT\",\"action\":\"sell\"\x7d", []⟩
        ⟨ "t", 0⟩ (.response 200 "ok") =
      tradingview_webhook jsonLoads initialManager
        ⟨some "application/json", "\x7b\"symbol\":\"ETHUSDT\",\"action\":\"sell\"\x7d", []⟩
        ⟨ "t", 0⟩ (.response 200 "ok") := by
  have h := parser_path_equivalence jsonLoads
    "\x7b\"symbol\":\"ETHUSDT\",\"action\":\"sell\"\x7d" [] initialManager
    ⟨ "t", 0⟩ (.response 200 "ok")
    [("symbol", PyVal.str "ETHUSDT"), ("action", PyVal.str "sell")] rfl (by decide)
  exact ⟨h.1, h.2.2⟩
